import Mathlib

/-!
Verification of the code-generation-and-sandboxed-execution core of the
Vizualtion-Agent repository (`AgentClass.py`), as a shallow embedding.

Pure string processing (`_strip_code_fences`, `assert_readonly`, the
conversation-controller bookkeeping in `Agent.answer`) is translated
directly into executable Lean functions.  The effectful parts
(`exec` of generated code, the chat-completion call, the embedded
analytical engine) are external to the repository's own logic and are
modelled by explicit outcome parameters: `run_python_chart` is a function
of the abstract execution effect (resulting namespace, captured output
buffers, raised exception), `generate` of the chat-call outcome, and the
Query Gateway of an abstract engine function.  Python exceptions are
modelled as a type/message pair (the `Exception` hierarchy caught by the
source's bare `except Exception:`), and `traceback.format_exc` as an
injective textual wrapping of that pair.
-/

namespace VizAgent

/-- The backtick character (ASCII 96), kept out of character literals. -/
def btick : Char := Char.ofNat 96

/-- The characters stripped by Python's `str.strip()` (ASCII whitespace). -/
def isPyWS (c : Char) : Bool :=
  c == ' ' || c == '\t' || c == '\n' || c == '\r' || c == '\x0b' || c == '\x0c'

/-- Python `str.strip()`: remove leading and trailing whitespace. -/
def pyStrip (l : List Char) : List Char :=
  ((l.dropWhile isPyWS).reverse.dropWhile isPyWS).reverse

/-- Python `str.lower()` (ASCII case folding). -/
def pyLower (l : List Char) : List Char := l.map Char.toLower

/-- Python `str.upper()` (ASCII case folding). -/
def pyUpper (s : String) : String := String.mk (s.data.map Char.toUpper)

/-- Three consecutive backticks, the code-fence marker of the regex in
`_strip_code_fences`. -/
def fence3 : List Char := [btick, btick, btick]

/-- The optional language tag of the leading-fence alternative
`(?:python)?` followed by greedy whitespace consumption. -/
def langTagStrip (r : List Char) : List Char :=
  if "python".data.isPrefixOf r then r.drop 6 else r

/-- The first regex alternative of `_strip_code_fences`,
anchored at position 0: three backticks, an optional literal language tag
`python`, then a greedy whitespace run.  Returns the remainder after the
match, or `none` when the string does not start with a fence. -/
def matchLeadingFence (l : List Char) : Option (List Char) :=
  if l.take 3 = fence3 then
    some ((langTagStrip (l.drop 3)).dropWhile isPyWS)
  else none

/-- Left-to-right scan of `re.sub` for the second regex alternative,
three backticks at the end of the string (with no MULTILINE flag, the
anchor matches at the very end or just before a final newline); each
match is replaced by the empty string and the scan resumes after it,
otherwise the scan advances one character. -/
def subScan : List Char → List Char
  | [] => []
  | c :: rest =>
    if (c :: rest).take 3 = fence3 ∧ (rest.drop 2 = [] ∨ rest.drop 2 = ['\n'])
    then rest.drop 2
    else c :: subScan rest

/-- The full substitution of the regex in `_strip_code_fences` on an
already-stripped string: at position 0 the alternation tries the leading
fence first; everywhere the trailing-fence alternative is tried. -/
def reSubFence (l : List Char) : List Char :=
  match matchLeadingFence l with
  | some r => subScan r
  | none => subScan l

/-- `_strip_code_fences` from `AgentClass.py`: the substitution
re.sub of the pattern "leading fence with optional python tag and
trailing whitespace run, or fence at end of string" by the empty string
on s.strip(), followed by a final strip (DOTALL is inert: the pattern
contains no dot, and without MULTILINE the anchors are string-level). -/
def strip_code_fences (s : String) : String :=
  String.mk (pyStrip (reSubFence (pyStrip s.data)))

/-- `assert_readonly` from `AgentClass.py`, as the predicate it tests:
`sql.strip().lower().startswith("select")`.  The source raises
`ValueError("Only SELECT queries allowed.")` exactly when this is false
(the spec classifies that failure as `PolicyViolation`). -/
def assert_readonly (sql : String) : Bool :=
  "select".data.isPrefixOf (pyLower (pyStrip sql.data))

/-- Outcome of the Query Gateway: either the policy violation raised by
`assert_readonly`, or the engine's materialized result. -/
inductive QueryOutcome (α : Type) where
  | policyViolation (msg : String)
  | result (r : α)
deriving DecidableEq

/-- `SQLProxy.query` from `AgentClass.py`, with the embedded analytical
engine (`self._con.query(...).to_df()`) abstracted as `engine`.  The
second component is the list of statements actually passed to the
engine, so that "the engine is never invoked" is expressible. -/
def sqlProxy_query {α : Type} (engine : String → α) (s : String) :
    QueryOutcome α × List String :=
  if assert_readonly s then (QueryOutcome.result (engine s), [s])
  else (QueryOutcome.policyViolation "Only SELECT queries allowed.", [])

/-- `GenResponse` from `AgentClass.py` (the rationale field is never
set by `generate` and is omitted). -/
structure GenResponse where
  code : String
deriving DecidableEq

/-- Outcome of the chat-completion call made by
`HFRouterCodeGenerator.generate`: either a completion text
(`chat.choices[0].message.content`), or a client-side failure (the
exception raised by the transport). -/
inductive ChatOutcome where
  | completion (content : String)
  | clientError (err : String)
deriving DecidableEq

/-- `HFRouterCodeGenerator.generate` from `AgentClass.py`, as a function
of the chat-call outcome.  The source wraps the call in no try/except:
a transport failure propagates to the caller unchanged (modelled as
`Except.error`); a successful completion is fence-stripped and returned,
with no emptiness check anywhere. -/
def generate (co : ChatOutcome) : Except String GenResponse :=
  match co with
  | ChatOutcome.clientError e => Except.error e
  | ChatOutcome.completion content => Except.ok ⟨strip_code_fences content⟩

/-- `ChartResult` from `AgentClass.py`.  The opaque rendering object is
modelled as a numeric handle, so that distinct objects are
distinguishable and "returns that exact object" is equality of handles. -/
structure ChartResult where
  kind : String
  obj : Nat
  explanation : String
deriving DecidableEq

/-- A value bound in the execution namespace: either a `ChartResult`
or anything else (tagged opaquely). -/
inductive PyVal where
  | chart (c : ChartResult)
  | other (tag : String)
deriving DecidableEq

/-- A Python exception from the `Exception` hierarchy (the class caught
by the source's bare `except Exception:`), as its type name and message. -/
structure PyExn where
  ty : String
  msg : String
deriving DecidableEq

/-- `traceback.format_exc()`: the full diagnostic trace of the current
exception as text; the exception's type survives only inside this text. -/
def formatExc (e : PyExn) : String :=
  "Traceback (most recent call last):\n" ++ e.ty ++ ": " ++ e.msg

/-- The effect of `exec(code, env, local_ns)` run under
`redirect_stdout`/`redirect_stderr`: the resulting local namespace, the
text the code wrote to the redirected stdout and stderr buffers, and the
exception it raised, if any. -/
structure ExecEffect where
  ns : List (String × PyVal)
  outBuf : String
  errBuf : String
  raised : Option PyExn

/-- Dictionary lookup in an execution namespace (`local_ns.get`). -/
def lookupNs (ns : List (String × PyVal)) (x : String) : Option PyVal :=
  (ns.find? (fun p => p.fst == x)).map Prod.snd

/-- The keys of the `SAFE_BUILTINS` dict from `AgentClass.py`, in source
order.  Note that it includes the generic import primitive. -/
def SAFE_BUILTINS : List String :=
  ["abs", "all", "any", "enumerate", "len", "min", "max", "range", "sum",
   "sorted", "zip", "round", "__import__"]

/-- The keys of the `env` dict built by `run_python_chart` (the `sql`
key is written twice in the source dict literal; a dict keeps one). -/
def ENV_NAMES : List String :=
  ["__builtins__", "pd", "np", "duckdb", "plt", "px", "alt", "sql",
   "ChartResult", "as_plotly", "as_matplotlib", "as_altair",
   "normalize_str_series"]

/-- The validation failure raised when the executed code leaves no
`ChartResult` bound to `result`:
`ValueError("Generated code must assign ...")`. -/
def validationExc : PyExn :=
  ⟨"ValueError", "Generated code must assign `result = ...`"⟩

/-- Outcome of `run_python_chart`: the `ChartResult` bound to `result`,
or the single `RuntimeError(traceback.format_exc())` the source re-raises
(the spec's `ExecutionError`).  No other outcome exists. -/
inductive RunOutcome where
  | success (c : ChartResult)
  | execError (diag : String)
deriving DecidableEq

/-- `run_python_chart` from `AgentClass.py`.  `prep` is the outcome of
the preparation step (constructing `SQLProxy`: the duckdb connect and
per-table register calls), `interp` the effect of `exec`-ing the code
against the prepared namespace (whose key set is `ENV_NAMES`) with
stdout/stderr redirected into transient buffers.  Any exception from
preparation, execution or validation is caught by the one
`except Exception:` and re-raised as `RuntimeError(traceback.format_exc())`;
the buffers are local `io.StringIO()` objects that are never read. -/
def run_python_chart (prep : Option PyExn)
    (interp : String → List String → ExecEffect) (code : String) :
    RunOutcome :=
  match prep with
  | some e => RunOutcome.execError (formatExc e)
  | none =>
    let eff := interp code ENV_NAMES
    match eff.raised with
    | some e => RunOutcome.execError (formatExc e)
    | none =>
      match lookupNs eff.ns "result" with
      | some (PyVal.chart c) => RunOutcome.success c
      | _ => RunOutcome.execError (formatExc validationExc)

/-- The Python import machinery as triggered by an `import` statement in
`exec`-ed code: it calls the function bound to the name of the dunder
hook `__import__` in the namespace's builtins mapping; when that key is
present the requested module is resolved and loaded, otherwise an
ImportError is raised.  Returns the loaded module's name. -/
def execImportStatement (builtins : List String) (modName : String) :
    Option String :=
  if "__import__" ∈ builtins then some modName else none

/-- The exec effect of the one-statement program "import os" under the
executor's environment: the builtins mapping installed by
`run_python_chart` is `SAFE_BUILTINS`, and the import machinery consults
it; on success the module is bound in the local namespace. -/
def importInterp (code : String) (env : List String) : ExecEffect :=
  if code = "import os" ∧ "__builtins__" ∈ env then
    match execImportStatement SAFE_BUILTINS "os" with
    | some m => ⟨[("os", PyVal.other m)], "", "", none⟩
    | none => ⟨[], "", "", some ⟨"ImportError", "no import hook"⟩⟩
  else ⟨[], "", "", some ⟨"SyntaxError", "program not modelled"⟩⟩

/-- A `{role, content}` turn of the conversation history kept by `Agent`. -/
structure Turn where
  role : String
  content : String
deriving DecidableEq

/-- The `continuation_keywords` list from `Agent.answer`, in source order. -/
def continuationKeywords : List String :=
  ["now", "again", "also", "same", "continue", "compare",
   "filter", "only", "add", "change", "modify", "redo",
   "use previous", "previous", "last"]

/-- Continuation detection in `Agent.answer`:
`any(kw in question.lower() for kw in continuation_keywords)`. -/
def isContinuation (question : String) : Bool :=
  continuationKeywords.any
    (fun kw => decide (kw.data <:+: pyLower question.data))

/-- `Agent.answer`, step 1: `if not is_continuation: self.history = []`. -/
def historyAfterClear (history : List Turn) (question : String) :
    List Turn :=
  if isContinuation question then history else []

/-- `Agent.answer`, step 2: append the user turn. -/
def historyWithUser (history : List Turn) (question : String) :
    List Turn :=
  historyAfterClear history question ++ [⟨"user", question⟩]

/-- `limited_history = self.history[-4:]` (a Python slice: the stored
list itself is untouched). -/
def promptTurns (history : List Turn) (question : String) : List Turn :=
  (historyWithUser history question).drop
    ((historyWithUser history question).length - 4)

/-- One `ROLE: content` line of the combined prompt. -/
def lineOf (t : Turn) : String :=
  pyUpper t.role ++ ": " ++ t.content ++ "\n"

/-- The `combined_question` accumulation loop of `Agent.answer`. -/
def combinedQuestion (history : List Turn) (question : String) : String :=
  (promptTurns history question).foldl (fun acc t => acc ++ lineOf t) ""

/-- The stored history after one full successful `answer` call: clear
unless continuing, append the user turn, and after generation and
execution append the assistant turn carrying the result's explanation.
No truncation of the stored list occurs anywhere in the source. -/
def answerStep (history : List Turn) (question explanation : String) :
    List Turn :=
  historyWithUser history question ++ [⟨"assistant", explanation⟩]

/-! ### Helper lemmas -/

/-- String append acts as list append on the underlying characters. -/
theorem data_append (a b : String) : (a ++ b).data = a.data ++ b.data := rfl

/-- `pyStrip` is right-trailing removal after left removal. -/
theorem pyStrip_eq (l : List Char) :
    pyStrip l = List.rdropWhile isPyWS (l.dropWhile isPyWS) := rfl

/-- A stripped string has no leading whitespace left to drop. -/
theorem pyStrip_dropWhile (l : List Char) :
    (pyStrip l).dropWhile isPyWS = pyStrip l := by
  rw [List.dropWhile_eq_self_iff]
  intro hl
  have hpre : pyStrip l <+: l.dropWhile isPyWS := List.rdropWhile_prefix _ _
  have hlen : 0 < (l.dropWhile isPyWS).length := lt_of_lt_of_le hl hpre.length_le
  have hnot := List.dropWhile_get_zero_not (p := isPyWS) l hlen
  have hget : (pyStrip l).get ⟨0, hl⟩ = (l.dropWhile isPyWS).get ⟨0, hlen⟩ := by
    simpa [List.get_eq_getElem] using List.IsPrefix.getElem hpre (by simpa using hl)
  rw [hget]
  exact hnot

/-- Stripping twice strips once. -/
theorem pyStrip_idem (l : List Char) : pyStrip (pyStrip l) = pyStrip l := by
  have h1 : pyStrip (pyStrip l)
      = List.rdropWhile isPyWS ((pyStrip l).dropWhile isPyWS) := rfl
  rw [h1, pyStrip_dropWhile, pyStrip_eq]
  exact List.rdropWhile_idempotent _ _

/-- The last character of a stripped string is not whitespace. -/
theorem pyStrip_getLast_not_ws (l : List Char) (c : Char)
    (h : (pyStrip l).getLast? = some c) : isPyWS c = false := by
  have hrev : (pyStrip l).reverse
      = List.dropWhile isPyWS ((l.dropWhile isPyWS).reverse) := by
    simp [pyStrip]
  have h' : ((pyStrip l).reverse).head? = some c := by
    rw [List.head?_reverse, h]
  rw [hrev] at h'
  have hne : List.dropWhile isPyWS ((l.dropWhile isPyWS).reverse) ≠ [] := by
    intro h0
    rw [h0] at h'
    simp at h'
  rw [List.head?_eq_head hne] at h'
  have hhead : (List.dropWhile isPyWS ((l.dropWhile isPyWS).reverse)).head hne
      = c := by injection h'
  have hnot := List.head_dropWhile_not isPyWS ((l.dropWhile isPyWS).reverse) hne
  rw [hhead] at hnot
  simpa using hnot

/-- A list that does not begin with a fence has no leading-fence match. -/
theorem matchLeadingFence_eq_none (l : List Char) (h : ¬ fence3 <+: l) :
    matchLeadingFence l = none := by
  rw [matchLeadingFence, if_neg]
  intro htake
  refine h (List.prefix_iff_eq_take.mpr ?_)
  simpa [fence3] using htake.symm

/-- The trailing-fence scan is the identity on any list with no fence at
its end and no fence just before a final newline. -/
theorem subScan_eq_self : ∀ (t : List Char), ¬ fence3 <:+ t →
    ¬ (fence3 ++ ['\n']) <:+ t → subScan t = t
  | [], _, _ => rfl
  | c :: rest, h1, h2 => by
    rw [subScan, if_neg, subScan_eq_self rest
      (fun hh => h1 (hh.trans (List.suffix_cons c rest)))
      (fun hh => h2 (hh.trans (List.suffix_cons c rest)))]
    rintro ⟨hf, hd⟩
    have hf' : c :: rest.take 2 = fence3 := by
      simpa [List.take_succ_cons] using hf
    rcases hd with hd | hd
    · have hr : rest.take 2 = rest := by
        conv_rhs => rw [← List.take_append_drop 2 rest]
        rw [hd, List.append_nil]
      refine h1 ?_
      rw [show c :: rest = fence3 from by rw [← hr]; exact hf']
    · have hr2 : rest = rest.take 2 ++ ['\n'] := by
        rw [← hd]
        exact (List.take_append_drop 2 rest).symm
      refine h2 ?_
      rw [show c :: rest = fence3 ++ ['\n'] from by rw [hr2, ← hf']; rfl]

/--  Accumulating ROLE lines by left fold is flattening the mapped lines. -/
theorem foldl_lineOf_data (ts : List Turn) (acc : String) :
    (ts.foldl (fun a t => a ++ lineOf t) acc).data
      = acc.data ++ (ts.map (fun t => (lineOf t).data)).flatten := by
  induction ts generalizing acc with
  | nil => simp
  | cons t ts ih =>
    simp only [List.foldl_cons, ih, List.map_cons, List.flatten_cons,
      data_append, List.append_assoc]

/-- A member of a list of lists sits inside the flattened list. -/
theorem infix_flatten_of_mem {α : Type} {l : List α} {L : List (List α)}
    (h : l ∈ L) : l <:+: L.flatten := by
  induction L with
  | nil => cases h
  | cons x L ih =>
    rcases List.mem_cons.mp h with h1 | h2
    · subst h1
      exact ⟨[], L.flatten, by simp⟩
    · rcases ih h2 with ⟨s, t, hst⟩
      exact ⟨x ++ s, t, by simp [List.append_assoc, hst]⟩

/-! ### Claim theorems -/

/-- C1: with preparation succeeded and the code executed without raising,
if the execution namespace has no binding named `result`, or a `result`
binding that is not a `ChartResult`, then `run_python_chart` raises the
validation `ExecutionError`; and if `result` is bound to a `ChartResult`,
it returns that exact object (object identity is rendered as equality of
the looked-up value, handle included — the source returns the looked-up
reference unchanged). -/
theorem c1_result_validation (interp : String → List String → ExecEffect)
    (code : String) (hr : (interp code ENV_NAMES).raised = none) :
    (lookupNs (interp code ENV_NAMES).ns "result" = none →
      run_python_chart none interp code
        = RunOutcome.execError (formatExc validationExc)) ∧
    (∀ tag, lookupNs (interp code ENV_NAMES).ns "result"
        = some (PyVal.other tag) →
      run_python_chart none interp code
        = RunOutcome.execError (formatExc validationExc)) ∧
    (∀ c, lookupNs (interp code ENV_NAMES).ns "result"
        = some (PyVal.chart c) →
      run_python_chart none interp code = RunOutcome.success c) := by
  refine ⟨fun h => ?_, fun tag h => ?_, fun c h => ?_⟩ <;>
    simp [run_python_chart, hr, h]

/-- Witness for C1 at a concrete execution effect binding `result` to a
concrete `ChartResult`. -/
theorem c1_witness :
    run_python_chart none
      (fun _ _ =>
        ⟨[("result", PyVal.chart ⟨"plotly", 7, "bar chart"⟩)], "", "", none⟩)
      "code" = RunOutcome.success ⟨"plotly", 7, "bar chart"⟩ :=
  (c1_result_validation _ _ rfl).2.2 _ rfl

/-- C2: a statement that, stripped and case-folded, does not start with
the keyword select makes the Query Gateway raise the policy violation
with the engine never invoked (empty engine-call log); one that does
start with select is passed to the engine. -/
theorem c2_readonly_gateway {α : Type} (engine : String → α) (s : String) :
    (assert_readonly s = false →
      sqlProxy_query engine s
        = (QueryOutcome.policyViolation "Only SELECT queries allowed.",
           ([] : List String))) ∧
    (assert_readonly s = true →
      sqlProxy_query engine s = (QueryOutcome.result (engine s), [s])) := by
  constructor <;> intro h <;> simp [sqlProxy_query, h]

/-- Witness for C2: the spec's end-to-end scenario C ("DROP TABLE data"
is rejected with no engine call) and an accepted select statement. -/
theorem c2_witness :
    sqlProxy_query (fun q => q.length) "DROP TABLE data"
        = (QueryOutcome.policyViolation "Only SELECT queries allowed.",
           ([] : List String)) ∧
    sqlProxy_query (fun q => q.length) " select 1"
        = (QueryOutcome.result (" select 1".length), [" select 1"]) := by
  constructor
  · exact (c2_readonly_gateway (fun q => q.length) "DROP TABLE data").1
      (by decide)
  · exact (c2_readonly_gateway (fun q => q.length) " select 1").2 (by decide)

/-- C3: any exception raised during preparation or execution is re-raised
as the single `ExecutionError` whose message is the captured diagnostic
trace, and every `ExecutionError` produced by `run_python_chart` carries
exactly such a trace text — the original exception survives only as
text, and by the shape of `RunOutcome` nothing but a success or this one
error kind ever leaves `run_python_chart`. -/
theorem c3_error_wrapping (prep : Option PyExn)
    (interp : String → List String → ExecEffect) (code : String) :
    (∀ e, prep = some e →
      run_python_chart prep interp code
        = RunOutcome.execError (formatExc e)) ∧
    (∀ e, prep = none → (interp code ENV_NAMES).raised = some e →
      run_python_chart prep interp code
        = RunOutcome.execError (formatExc e)) ∧
    (∀ d, run_python_chart prep interp code = RunOutcome.execError d →
      ∃ e, d = formatExc e) := by
  refine ⟨fun e h => by simp [run_python_chart, h],
    fun e h h2 => by simp [run_python_chart, h, h2], fun d h => ?_⟩
  cases prep with
  | some e =>
    refine ⟨e, ?_⟩
    simp [run_python_chart] at h
    exact h.symm
  | none =>
    rcases he : (interp code ENV_NAMES).raised with _ | e
    · rcases hl : lookupNs (interp code ENV_NAMES).ns "result" with _ | v
      · refine ⟨validationExc, ?_⟩
        simp [run_python_chart, he, hl] at h
        exact h.symm
      · cases v with
        | chart c => simp [run_python_chart, he, hl] at h
        | other tag =>
          refine ⟨validationExc, ?_⟩
          simp [run_python_chart, he, hl] at h
          exact h.symm
    · refine ⟨e, ?_⟩
      simp [run_python_chart, he] at h
      exact h.symm

/-- Witness for C3 at a concrete raising execution. -/
theorem c3_witness :
    run_python_chart none
      (fun _ _ => ⟨[], "", "", some ⟨"ZeroDivisionError", "division by zero"⟩⟩)
      "1/0" = RunOutcome.execError
        (formatExc ⟨"ZeroDivisionError", "division by zero"⟩) :=
  (c3_error_wrapping none _ "1/0").2.1 _ rfl rfl

/-- C4 (code evaluated at the failing input "import os"): the builtins
mapping the executor installs exposes the generic import hook, so the
machinery of imports resolves and loads the os module — a name outside the
allow-listed namespace, refuting isolation — while a direct call of open
would at least fail to resolve. -/
theorem c4_import_escape :
    "__import__" ∈ SAFE_BUILTINS ∧
    execImportStatement SAFE_BUILTINS "os" = some "os" ∧
    "os" ∉ SAFE_BUILTINS ∧ "os" ∉ ENV_NAMES ∧
    "open" ∉ SAFE_BUILTINS ∧ "open" ∉ ENV_NAMES := by decide

/-- C5: `SAFE_BUILTINS` contains the generic import primitive, so the
program "import os" executes without error under the executor's
environment, binding a module that is not among the allow-listed names. -/
theorem c5_import_exposed :
    "__import__" ∈ SAFE_BUILTINS ∧
    (importInterp "import os" ENV_NAMES).raised = none ∧
    lookupNs (importInterp "import os" ENV_NAMES).ns "os"
      = some (PyVal.other "os") ∧
    "os" ∉ SAFE_BUILTINS ∧ "os" ∉ ENV_NAMES := by decide

/-- C6 (amended): fence-stripping is idempotent on every string whose
once-stripped form neither begins nor ends with a triple-backtick fence;
the unrestricted claim is refuted by `c6_counterexample`. -/
theorem c6_strip_fences_idem (s : String)
    (h1 : ¬ fence3 <+: (strip_code_fences s).data)
    (h2 : ¬ fence3 <:+ (strip_code_fences s).data) :
    strip_code_fences (strip_code_fences s) = strip_code_fences s := by
  have ht : (strip_code_fences s).data
      = pyStrip (reSubFence (pyStrip s.data)) := rfl
  have hstrip : pyStrip (strip_code_fences s).data
      = (strip_code_fences s).data := by
    rw [ht]
    exact pyStrip_idem _
  have hml : matchLeadingFence (strip_code_fences s).data = none :=
    matchLeadingFence_eq_none _ h1
  have hnl : ¬ (fence3 ++ ['\n']) <:+ (strip_code_fences s).data := by
    rintro ⟨pre, hpre⟩
    have hlast : (strip_code_fences s).data.getLast? = some '\n' := by
      rw [← hpre,
        show pre ++ (fence3 ++ ['\n']) = (pre ++ fence3) ++ ['\n'] from by
          rw [List.append_assoc],
        List.getLast?_concat]
    have hws := pyStrip_getLast_not_ws (reSubFence (pyStrip s.data)) '\n'
      (by rw [← ht]; exact hlast)
    simp [isPyWS] at hws
  have hsub : subScan (strip_code_fences s).data
      = (strip_code_fences s).data :=
    subScan_eq_self _ h2 hnl
  have hre : reSubFence (strip_code_fences s).data
      = (strip_code_fences s).data := by
    unfold reSubFence
    rw [hml]
    exact hsub
  show String.mk (pyStrip (reSubFence (pyStrip (strip_code_fences s).data)))
      = strip_code_fences s
  rw [hstrip, hre, hstrip]

/-- Counterexample for C6 as stated: one stripping pass on "x``````"
leaves "x```", and a second pass strips again, to "x". -/
theorem c6_counterexample :
    strip_code_fences (strip_code_fences "x``````")
      ≠ strip_code_fences "x``````" := by decide

/-- Witness for C6 at a concrete fenced code block. -/
theorem c6_witness :
    strip_code_fences (strip_code_fences "```python\nprint(1)\n```")
      = strip_code_fences "```python\nprint(1)\n```" :=
  c6_strip_fences_idem _ (by decide) (by decide)

/-- C7: a question with no continuation keyword clears all prior history
before the user turn is appended; one with a continuation keyword keeps
the prior turns, and each of the up-to-three most recent prior turns is
part of the prompt slice and contributes its ROLE: content line to the
combined prompt. -/
theorem c7_history_reset (history : List Turn) (question : String) :
    (isContinuation question = false →
      historyWithUser history question = [⟨"user", question⟩]) ∧
    (isContinuation question = true →
      historyWithUser history question
          = history ++ [⟨"user", question⟩] ∧
      ∀ t ∈ history.drop (history.length - 3),
        t ∈ promptTurns history question ∧
        (lineOf t).data <:+: (combinedQuestion history question).data) := by
  constructor
  · intro h
    simp [historyWithUser, historyAfterClear, h]
  · intro h
    have hu : historyWithUser history question
        = history ++ [⟨"user", question⟩] := by
      simp [historyWithUser, historyAfterClear, h]
    refine ⟨hu, fun t ht => ?_⟩
    have hdropeq : promptTurns history question
        = history.drop (history.length - 3) ++ [⟨"user", question⟩] := by
      unfold promptTurns
      rw [hu]
      have h4 : (history ++ [(⟨"user", question⟩ : Turn)]).length - 4
          = history.length - 3 := by
        simp
      rw [h4, List.drop_append_of_le_length (Nat.sub_le _ _)]
    constructor
    · rw [hdropeq]
      exact List.mem_append_left _ ht
    · have hcomb : (combinedQuestion history question).data
          = ((promptTurns history question).map
              (fun t => (lineOf t).data)).flatten := by
        simp [combinedQuestion, foldl_lineOf_data]
      rw [hcomb]
      exact infix_flatten_of_mem (List.mem_map_of_mem _
        (by rw [hdropeq]; exact List.mem_append_left _ ht))

/-- Witness for C7: a fresh question wipes the history; a continuing one
keeps the prior turn's line inside the combined prompt. -/
theorem c7_witness :
    historyWithUser [⟨"user", "plot sales"⟩] "show the dataset"
      = [⟨"user", "show the dataset"⟩] ∧
    (lineOf ⟨"user", "plot sales"⟩).data
      <:+: (combinedQuestion [⟨"user", "plot sales"⟩] "also by year").data := by
  constructor
  · exact (c7_history_reset [⟨"user", "plot sales"⟩] "show the dataset").1
      (by decide)
  · exact (((c7_history_reset [⟨"user", "plot sales"⟩] "also by year").2
      (by decide)).2 ⟨"user", "plot sales"⟩ (by decide)).2

/-- Counterexample for C8 as stated: three continuing `answer` calls
leave six turns in the stored history — the source truncates only the
prompt slice, never the stored list. -/
theorem c8_counterexample :
    ¬ ((answerStep (answerStep (answerStep [] "also revenue" "chart one")
        "also by region" "chart two") "also sorted" "chart three").length
      ≤ 4) := by decide

/-- C8 (amended): the bound of four most recent turns holds for the
prompt slice `promptTurns`, not for the stored history: at most the four
most recent turns are ever included in the combined prompt. -/
theorem c8_prompt_bound (history : List Turn) (question : String) :
    (promptTurns history question).length ≤ 4 := by
  rw [promptTurns, List.length_drop]
  omega

/-- Counterexample for C9 as stated: a completion with empty content
makes `generate` return a `GenerationResult` (with empty code) instead
of raising. -/
theorem c9_counterexample :
    generate (ChatOutcome.completion "") = Except.ok ⟨""⟩ := rfl

/-- C9 (amended): a failed model call propagates out of `generate`
unchanged (the surfaced upstream failure); a successful call always
yields a `GenerationResult` whose code is the fence-stripped content,
with no emptiness check — even for content that is or strips to empty. -/
theorem c9_generate_behavior (e content : String) :
    generate (ChatOutcome.clientError e) = Except.error e ∧
    generate (ChatOutcome.completion content)
      = Except.ok ⟨strip_code_fences content⟩ :=
  ⟨rfl, rfl⟩

/-- C10 (amended): the stdout/stderr buffers are transient and inert —
the outcome of `run_python_chart` is entirely independent of their
contents, on success and on failure alike (they are discarded in both
cases and never reach the caller); the failure diagnostic carries only
the exception trace. -/
theorem c10_buffers_inert (prep : Option PyExn) (code : String)
    (ns : List (String × PyVal)) (ob eb ob' eb' : String)
    (r : Option PyExn) :
    run_python_chart prep (fun _ _ => ⟨ns, ob, eb, r⟩) code
      = run_python_chart prep (fun _ _ => ⟨ns, ob', eb', r⟩) code := by
  cases prep <;> cases r <;> rfl

/-- Counterexample for C10 as stated: on failure the diagnostic does not
include the captured stdout text. -/
theorem c10_counterexample :
    run_python_chart none
      (fun _ _ =>
        ⟨[], "hello from the code", "", some ⟨"ValueError", "boom"⟩⟩)
      "print" = RunOutcome.execError
        "Traceback (most recent call last):\nValueError: boom"
    ∧ ¬ ("hello from the code".data <:+:
        "Traceback (most recent call last):\nValueError: boom".data) :=
  ⟨rfl, by decide⟩

end VizAgent
